import Mathlib

/-!
Verification of the arbitrage-bot detection/validation/execution pipeline
(`arbitrage_monitor.py`, `integrated_arbitrage_bot.py`,
`smart_contract_interaction.py`) against its specification.

Modelling conventions:
* Python floats and ints are modelled as `ℚ` and `ℤ` (all the computations the
  claims exercise are exact decimal/rational arithmetic).
* A fallible external call (RPC transport, contract call) is modelled as an
  `Except Unit α` argument: `.ok v` is a successful call returning `v`,
  `.error ()` is any raised exception (transport error, revert, malformed
  response).
* Python code that can itself raise (the `ZeroDivisionError` in
  `monitor_opportunities`) returns `Except Unit _`.
-/

namespace ArbBot

instance {ε α : Type} [DecidableEq ε] [DecidableEq α] : DecidableEq (Except ε α) :=
  fun x y =>
    match x, y with
    | .ok a, .ok b => if h : a = b then isTrue (by rw [h]) else isFalse (by simp [h])
    | .error a, .error b => if h : a = b then isTrue (by rw [h]) else isFalse (by simp [h])
    | .ok _, .error _ => isFalse (by simp)
    | .error _, .ok _ => isFalse (by simp)

/-- Python `int()` applied to a number: truncation toward zero (for a
non-negative rational `q.num / q.den` in integer division; negatives are
negated first, so the division always acts on non-negative operands). -/
def pyint (q : ℚ) : ℤ :=
  if q < 0 then -((-q).num / (((-q).den : ℤ))) else q.num / ((q.den : ℤ))

/-- `self.min_profit_threshold = 0.001` (arbitrage_monitor.py line 59). -/
def min_profit_threshold : ℚ := 1/1000

/-- `self.min_liquidity = 10000` (arbitrage_monitor.py line 62). -/
def min_liquidity : ℚ := 10000

/-- The `ArbitrageOpportunity` dataclass (arbitrage_monitor.py lines 33-44).
Numeric fields are `ℚ`: Python does not enforce the `int` annotations and the
`calculate_arbitrage_opportunity` path stores floats in them. -/
structure ArbitrageOpportunity where
  token_a : String
  token_b : String
  amount_in : ℚ
  expected_profit : ℚ
  gas_cost : ℚ
  net_profit : ℚ
  router1 : String
  router2 : String
  reverse_order : Bool
  confidence_score : ℚ
deriving Repr, DecidableEq

/-- `_fetch_dex_price` (arbitrage_monitor.py lines 110-117): on a successful
router call returns `amounts[1] / amount_in`; on any exception returns `0.0`. -/
def fetch_dex_price (amount_in : ℤ) (call : Except Unit ℤ) : ℚ :=
  match call with
  | .ok amount1 => (amount1 : ℚ) / (amount_in : ℚ)
  | .error _ => 0

/-- `get_current_prices` (arbitrage_monitor.py lines 254-291): queries both
routers inside one `try`; each price is `amounts[1] / 10 ** decimals`; any
exception in the block makes the function return `(0.0, 0.0)`.
`uni_call`/`sushi_call` are the outcomes of the two `getAmountsOut` calls
(the returned `amounts[1]`), `dec_b` the resolved decimals of `token_b`.
Note: in the source as written the success branch is unreachable — lines 265
and 275 reference `UNISWAP_ROUTER_ABI`, which is defined nowhere in the
module (only `ROUTER_ABI` is), so the `try` always raises `NameError` and the
real function always returns `(0.0, 0.0)`; the branch is kept for the shape
of the data, and the theorems below rely only on the error branch. -/
def get_current_prices (dec_b : ℕ) (uni_call sushi_call : Except Unit ℤ) : ℚ × ℚ :=
  match uni_call, sushi_call with
  | .ok u, .ok s => ((u : ℚ) / 10 ^ dec_b, (s : ℚ) / 10 ^ dec_b)
  | _, _ => (0, 0)

/-- The per-pair body of `monitor_opportunities` (arbitrage_monitor.py lines
300-322), with the hard-coded trade size (`amount_in = 10^18`, line 306) and
the gas estimate (an external chain read, line 308) as parameters:
`price_diff = abs(uni - sushi)`; if positive, `expected_profit =
int(price_diff * amount_in / min(uni, sushi))` — a `ZeroDivisionError`
(modelled `.error ()`) when the smaller price is zero — and an
`ArbitrageOpportunity` is appended iff `expected_profit > gas_cost`. -/
def monitor_pair (uni_price sushi_price : ℚ) (amount_in gas_cost : ℤ)
    (token_a token_b : String) : Except Unit (Option ArbitrageOpportunity) :=
  let price_diff := |uni_price - sushi_price|
  if 0 < price_diff then
    if min uni_price sushi_price = 0 then .error ()
    else
      let expected_profit := pyint (price_diff * (amount_in : ℚ) / min uni_price sushi_price)
      if gas_cost < expected_profit then
        .ok (some
          { token_a := token_a
            token_b := token_b
            amount_in := (amount_in : ℚ)
            expected_profit := (expected_profit : ℚ)
            gas_cost := (gas_cost : ℚ)
            net_profit := ((expected_profit - gas_cost : ℤ) : ℚ)
            router1 := "0xeE567Fe1712Faf6149d80dA1E6934E354124CfE3"
            router2 := "0xeaBcE3E74EF41FB40024a21Cc2ee2F5dDc615791"
            reverse_order := decide (sushi_price < uni_price)
            confidence_score := 9/10 })
      else .ok none
  else .ok none

/-- `monitor_opportunities` (arbitrage_monitor.py lines 294-324) over a list of
already-sampled snapshots `(token_a, token_b, uni_price, sushi_price)`, using
the code's fixed `amount_in = 10^18`. -/
def monitor_opportunities :
    List (String × String × ℚ × ℚ) → ℤ → Except Unit (List ArbitrageOpportunity)
  | [], _ => .ok []
  | (a, b, u, s) :: rest, gas =>
    match monitor_pair u s (10 ^ 18) gas a b with
    | .error e => .error e
    | .ok o =>
      match monitor_opportunities rest gas with
      | .error e => .error e
      | .ok os => .ok (o.toList ++ os)

/-- The sampling-then-evaluation composition of `monitor_opportunities`: the
prices fed to the per-pair evaluation are exactly the output of
`get_current_prices` (arbitrage_monitor.py line 300). -/
def monitor_pair_from_quotes (dec_b : ℕ) (uni_call sushi_call : Except Unit ℤ)
    (gas_cost : ℤ) (token_a token_b : String) :
    Except Unit (Option ArbitrageOpportunity) :=
  let p := get_current_prices dec_b uni_call sushi_call
  monitor_pair p.1 p.2 (10 ^ 18) gas_cost token_a token_b

/-- `_calculate_confidence_score` (arbitrage_monitor.py lines 196-213):
`liquidity_score = min(total_liquidity / min_liquidity, 1.0)`,
`profit_score = min(profit / (min_profit_threshold * 1e18 * 10), 1.0)`,
`confidence = liquidity_score * 0.6 + profit_score * 0.4`. -/
def calculate_confidence_score
    (uniswap_liquidity_a sushiswap_liquidity_a profit : ℚ) : ℚ :=
  let total_liquidity := uniswap_liquidity_a + sushiswap_liquidity_a
  let liquidity_score := min (total_liquidity / min_liquidity) 1
  let profit_score := min (profit / (min_profit_threshold * 10 ^ 18 * 10)) 1
  liquidity_score * (6/10) + profit_score * (4/10)

/-- `calculate_arbitrage_opportunity` (arbitrage_monitor.py lines 119-182).
The four dictionary lookups with default `0` are passed as the four price
arguments (an absent entry is `0`); `all([...])` fails iff some price is `0`;
the rates, branch on `uniswap_rate > sushiswap_rate`, `profit <= 0` rejection,
`net_profit < min_profit_threshold` rejection, and the constructed record
follow the source line by line (both branches set `reverse_order = True`). -/
def calculate_arbitrage_opportunity (token_a token_b : String) (amount_in : ℚ)
    (uniswap_a_price uniswap_b_price sushiswap_a_price sushiswap_b_price : ℚ)
    (gas_cost : ℤ) (uniswap_liquidity_a sushiswap_liquidity_a : ℚ) :
    Option ArbitrageOpportunity :=
  if uniswap_a_price = 0 ∨ uniswap_b_price = 0 ∨
      sushiswap_a_price = 0 ∨ sushiswap_b_price = 0 then none
  else
    let uniswap_rate := if 0 < uniswap_a_price then uniswap_b_price / uniswap_a_price else 0
    let sushiswap_rate := if 0 < sushiswap_a_price then sushiswap_b_price / sushiswap_a_price else 0
    if uniswap_rate = 0 ∨ sushiswap_rate = 0 then none
    else
      let res :=
        if sushiswap_rate < uniswap_rate then
          (amount_in * sushiswap_rate / uniswap_rate - amount_in, "sushiswap", "uniswap_v2")
        else
          (amount_in * uniswap_rate / sushiswap_rate - amount_in, "uniswap_v2", "sushiswap")
      if res.1 ≤ 0 then none
      else
        let net_profit := res.1 - (gas_cost : ℚ)
        if net_profit < min_profit_threshold then none
        else
          some
            { token_a := token_a
              token_b := token_b
              amount_in := amount_in
              expected_profit := res.1
              gas_cost := (gas_cost : ℚ)
              net_profit := net_profit
              router1 := res.2.1
              router2 := res.2.2
              reverse_order := true
              confidence_score :=
                calculate_confidence_score uniswap_liquidity_a sushiswap_liquidity_a res.1 }

/-- `check_arbitrage_opportunity` (smart_contract_interaction.py lines
114-127): returns the contract's profit figure, or `0` on any exception. -/
def check_arbitrage_opportunity (call : Except Unit ℤ) : ℤ :=
  match call with
  | .ok profit => profit
  | .error _ => 0

/-- The validation comparison of `run_arbitrage_cycle`
(integrated_arbitrage_bot.py line 118):
`abs(expected_profit - contract_profit) / max(expected_profit, contract_profit) < 0.1`. -/
def validation_passes (local_profit contract_profit : ℚ) : Bool :=
  decide (|local_profit - contract_profit| / max local_profit contract_profit < 1/10)

/-- The validation loop of `run_arbitrage_cycle` (integrated_arbitrage_bot.py
lines 104-124): keeps exactly the opportunities whose local `expected_profit`
agrees with the contract's figure within tolerance. `contract_profit` is the
(already `check_arbitrage_opportunity`-wrapped) on-chain figure per
opportunity. -/
def validate_opportunities (opps : List ArbitrageOpportunity)
    (contract_profit : ArbitrageOpportunity → ℚ) : List ArbitrageOpportunity :=
  opps.filter (fun o => validation_passes o.expected_profit (contract_profit o))

/-- The coordinator's cross-cycle counters (integrated_arbitrage_bot.py lines
61-62): `executed_trades` and `total_profit`. -/
structure BotState where
  executed_trades : ℕ
  total_profit : ℚ
deriving Repr, DecidableEq

/-- `execute_opportunity` (integrated_arbitrage_bot.py lines 126-170) as
written: building `trade_data` evaluates `datetime.now()` (line 139), but
`datetime` is never imported in the module (its imports are asyncio, time,
typing and the project modules), so every call raises `NameError` before the
balance read (line 150), the insufficient-balance `return False` (line 153),
the submission call (line 156) and the counter updates (lines 162-163). The
parameters are those the function would consume past line 139: the external
balance read, the submission outcome, and the coordinator state. -/
def execute_opportunity (_st : BotState) (_o : ArbitrageOpportunity)
    (_current_balance : ℚ) (_submit_success : Bool) :
    Except Unit (Bool × Bool × BotState) :=
  Except.error ()

/-- The execution loop of `run_bot` (integrated_arbitrage_bot.py lines
189-194): successive `execute_opportunity` calls threading the coordinator
state; each list entry is `(opportunity, balance_at_call,
submission_success)`. A raised exception propagates (it is caught only by
`run_bot`'s outer handler, lines 202-203, aborting the loop with the
counters as they were). -/
def run_executions (st : BotState) :
    List (ArbitrageOpportunity × ℚ × Bool) → Except Unit BotState
  | [] => Except.ok st
  | x :: rest =>
    match execute_opportunity st x.1 x.2.1 x.2.2 with
    | .error e => .error e
    | .ok r => run_executions r.2.2 rest

/-- The record `monitor_opportunities` constructs from the snapshot
`(uni, sushi) = (3000, 3050)` with gas cost `2·10^15` wei (0.002 ETH):
`expected_profit = int(50 · 10^18 / 3000) = 16666666666666666`. -/
def opp_sc : ArbitrageOpportunity :=
  { token_a := "a"
    token_b := "b"
    amount_in := ((10 ^ 18 : ℤ) : ℚ)
    expected_profit := ((16666666666666666 : ℤ) : ℚ)
    gas_cost := ((2 * 10 ^ 15 : ℤ) : ℚ)
    net_profit := ((14666666666666666 : ℤ) : ℚ)
    router1 := "0xeE567Fe1712Faf6149d80dA1E6934E354124CfE3"
    router2 := "0xeaBcE3E74EF41FB40024a21Cc2ee2F5dDc615791"
    reverse_order := false
    confidence_score := 9/10 }

/-- Inversion for the per-pair monitor step: an emitted opportunity is exactly
the record built on arbitrage_monitor.py lines 311-322, and the guard
`expected_profit > gas_cost` held. -/
lemma monitor_pair_eq_ok_some {u s : ℚ} {amt gas : ℤ} {a b : String}
    {opp : ArbitrageOpportunity}
    (h : monitor_pair u s amt gas a b = Except.ok (some opp)) :
    gas < pyint (|u - s| * (amt : ℚ) / min u s) ∧
    opp =
      { token_a := a
        token_b := b
        amount_in := (amt : ℚ)
        expected_profit := ((pyint (|u - s| * (amt : ℚ) / min u s) : ℤ) : ℚ)
        gas_cost := (gas : ℚ)
        net_profit := ((pyint (|u - s| * (amt : ℚ) / min u s) - gas : ℤ) : ℚ)
        router1 := "0xeE567Fe1712Faf6149d80dA1E6934E354124CfE3"
        router2 := "0xeaBcE3E74EF41FB40024a21Cc2ee2F5dDc615791"
        reverse_order := decide (s < u)
        confidence_score := 9/10 } := by
  simp only [monitor_pair] at h
  by_cases h1 : 0 < |u - s|
  · rw [if_pos h1] at h
    by_cases h2 : min u s = 0
    · rw [if_pos h2] at h
      exact absurd h (by simp)
    · rw [if_neg h2] at h
      by_cases h3 : gas < pyint (|u - s| * (amt : ℚ) / min u s)
      · rw [if_pos h3] at h
        simp only [Except.ok.injEq, Option.some.injEq] at h
        exact ⟨h3, h.symm⟩
      · rw [if_neg h3] at h
        simp at h
  · rw [if_neg h1] at h
    simp at h

/-- Inversion for `calculate_arbitrage_opportunity`: an emitted opportunity has
`net_profit = expected_profit - gas_cost` and passed the
`net_profit ≥ min_profit_threshold` guard. -/
lemma calculate_arbitrage_opportunity_eq_some {ta tb : String} {amt : ℚ}
    {ua ub sa sb : ℚ} {gas : ℤ} {ul sl : ℚ} {opp : ArbitrageOpportunity}
    (h : calculate_arbitrage_opportunity ta tb amt ua ub sa sb gas ul sl = some opp) :
    opp.net_profit = opp.expected_profit - opp.gas_cost ∧
    min_profit_threshold ≤ opp.net_profit := by
  simp only [calculate_arbitrage_opportunity] at h
  split_ifs at h <;>
    first
      | exact Option.noConfusion h
      | (injection h with h; subst h; exact ⟨rfl, not_lt.mp (by assumption)⟩)

/-- C1: every constructed `ArbitrageOpportunity` satisfies
`net_profit = expected_profit - gas_cost`, has strictly positive net profit,
and net profit at least `min_profit_threshold`; the validation step only
filters the list of opportunities (it never adds or alters one). -/
theorem opportunity_construction_invariant :
    (∀ (u s : ℚ) (amt gas : ℤ) (a b : String) (opp : ArbitrageOpportunity),
        monitor_pair u s amt gas a b = Except.ok (some opp) →
        opp.net_profit = opp.expected_profit - opp.gas_cost ∧
        0 < opp.net_profit ∧ min_profit_threshold ≤ opp.net_profit) ∧
    (∀ (ta tb : String) (amt ua ub sa sb : ℚ) (gas : ℤ) (ul sl : ℚ)
        (opp : ArbitrageOpportunity),
        calculate_arbitrage_opportunity ta tb amt ua ub sa sb gas ul sl = some opp →
        opp.net_profit = opp.expected_profit - opp.gas_cost ∧
        0 < opp.net_profit ∧ min_profit_threshold ≤ opp.net_profit) ∧
    (∀ (opps : List ArbitrageOpportunity) (f : ArbitrageOpportunity → ℚ)
        (opp : ArbitrageOpportunity),
        opp ∈ validate_opportunities opps f → opp ∈ opps) := by
  refine ⟨?_, ?_, ?_⟩
  · intro u s amt gas a b opp h
    obtain ⟨hgas, rfl⟩ := monitor_pair_eq_ok_some h
    dsimp only
    set e := pyint (|u - s| * (amt : ℚ) / min u s) with he
    refine ⟨by push_cast; ring, ?_, ?_⟩
    · have h1 : (0 : ℤ) < e - gas := by omega
      exact_mod_cast h1
    · have h1 : (1 : ℤ) ≤ e - gas := by omega
      have h2 : (1 : ℚ) ≤ ((e - gas : ℤ) : ℚ) := by exact_mod_cast h1
      unfold min_profit_threshold
      linarith
  · intro ta tb amt ua ub sa sb gas ul sl opp h
    obtain ⟨h1, h2⟩ := calculate_arbitrage_opportunity_eq_some h
    refine ⟨h1, ?_, h2⟩
    have : (0 : ℚ) < min_profit_threshold := by unfold min_profit_threshold; norm_num
    linarith
  · intro opps f opp h
    exact List.mem_of_mem_filter h

/-- Witness for C1 at the concrete snapshot `(3000, 3050)` with gas cost
`2·10^15`. -/
theorem opportunity_construction_invariant_witness :
    opp_sc.net_profit = opp_sc.expected_profit - opp_sc.gas_cost ∧
    0 < opp_sc.net_profit ∧ min_profit_threshold ≤ opp_sc.net_profit :=
  opportunity_construction_invariant.1 3000 3050 (10 ^ 18) (2 * 10 ^ 15) "a" "b"
    opp_sc (by with_unfolding_all rfl)

/-- C2 counterexample: a transport/revert failure of the quote call makes
`_fetch_dex_price` return `0.0` — the very same value as a successful call
whose quoted output amount is `0` — and `get_current_prices` and
`check_arbitrage_opportunity` likewise return plain zeros on failure, so no
distinct Unavailable signal exists. -/
theorem quote_unavailable_counterexample :
    fetch_dex_price (10 ^ 18) (Except.error ()) = 0 ∧
    fetch_dex_price (10 ^ 18) (Except.error ()) = fetch_dex_price (10 ^ 18) (Except.ok 0) ∧
    get_current_prices 6 (Except.error ()) (Except.ok 3050000000) = (0, 0) ∧
    check_arbitrage_opportunity (Except.error ()) = 0 :=
  ⟨rfl, by with_unfolding_all rfl, rfl, rfl⟩

/-- C2 amended: on every transport, contract-revert, or malformed-response
condition the quote operations return the number zero (`0.0`, `(0.0, 0.0)`,
`0`), not a distinct Unavailable signal; a failed quote is therefore
indistinguishable from a legitimate zero price. -/
theorem quote_failure_returns_zero :
    (∀ amt : ℤ, fetch_dex_price amt (Except.error ()) = 0) ∧
    (∀ (dec : ℕ) (c : Except Unit ℤ),
        get_current_prices dec (Except.error ()) c = (0, 0) ∧
        get_current_prices dec c (Except.error ()) = (0, 0)) ∧
    check_arbitrage_opportunity (Except.error ()) = 0 := by
  refine ⟨fun _ => rfl, fun dec c => ⟨?_, ?_⟩, rfl⟩ <;> cases c <;> rfl

/-- C3 counterexample: when the quote call fails, `get_current_prices` hands
the evaluation step the zero-substituted snapshot `(0.0, 0.0)` — the absent
side IS substituted with zero and evaluated (the pipeline on a failed quote is
literally the evaluation of the `(0, 0)` snapshot). -/
theorem absent_side_substituted_counterexample :
    get_current_prices 6 (Except.error ()) (Except.ok 3050000000) = (0, 0) ∧
    monitor_pair_from_quotes 6 (Except.error ()) (Except.ok 3050000000)
        (2 * 10 ^ 15) "a" "b" =
      monitor_pair 0 0 (10 ^ 18) (2 * 10 ^ 15) "a" "b" :=
  ⟨rfl, rfl⟩

/-- C3 amended: a quote failure substitutes both snapshot sides with `0.0` and
the snapshot is then evaluated; because the substituted prices are equal, the
evaluation produces no Opportunity, and likewise any equal-price snapshot
produces no Opportunity. -/
theorem failed_or_equal_snapshot_no_opportunity :
    (∀ (dec : ℕ) (c : Except Unit ℤ) (gas : ℤ) (a b : String),
        monitor_pair_from_quotes dec (Except.error ()) c gas a b = Except.ok none ∧
        monitor_pair_from_quotes dec c (Except.error ()) gas a b = Except.ok none) ∧
    (∀ (p : ℚ) (amt gas : ℤ) (a b : String),
        monitor_pair p p amt gas a b = Except.ok none) := by
  have hpair : ∀ (p : ℚ) (amt gas : ℤ) (a b : String),
      monitor_pair p p amt gas a b = Except.ok none := by
    intro p amt gas a b
    simp [monitor_pair]
  refine ⟨fun dec c gas a b => ⟨?_, ?_⟩, hpair⟩ <;>
    cases c <;>
      exact hpair 0 (10 ^ 18) gas a b

/-- C4 counterexample: with the claim's `reference_amount = 1` the code's
`int(...)` truncation makes the computed gross profit `0`, not `50/3000`, and
no Opportunity is created for the snapshot `(3000, 3050)` (whatever the gas
cost, shown here for gas cost `0`). -/
theorem gross_profit_unit_counterexample :
    monitor_pair 3000 3050 1 0 "a" "b" = Except.ok none ∧
    (pyint (|(3000 : ℚ) - 3050| * ((1 : ℤ) : ℚ) / min 3000 3050) : ℚ) = 0 ∧
    (0 : ℚ) ≠ 50 / 3000 := by
  refine ⟨by with_unfolding_all rfl, by with_unfolding_all rfl, ?_⟩
  with_unfolding_all decide

/-- C4 amended: the evaluator computes gross expected profit as the
`int()`-truncation `⌊|price1 − price2| · amount_in / min(price1, price2)⌋`
with the trade size fixed at `amount_in = 10^18` wei; for the snapshot
`(3000, 3050)` this gives `16666666666666666` (≈ 0.01667 ETH in wei), the
direction flag `reverse_order` is false (source 1 is the cheaper, "buy" side),
and with gas cost `2·10^15` wei (0.002 ETH) an Opportunity is created with
`net_profit = 14666666666666666`. -/
theorem gross_profit_truncated_wei :
    monitor_pair 3000 3050 (10 ^ 18) (2 * 10 ^ 15) "a" "b" = Except.ok (some opp_sc) ∧
    opp_sc.expected_profit =
      ((pyint (|(3000 : ℚ) - 3050| * ((10 ^ 18 : ℤ) : ℚ) / min 3000 3050) : ℤ) : ℚ) ∧
    opp_sc.expected_profit = 16666666666666666 ∧
    opp_sc.reverse_order = false ∧
    opp_sc.net_profit = 14666666666666666 ∧
    opp_sc.net_profit = opp_sc.expected_profit - opp_sc.gas_cost := by
  refine ⟨by with_unfolding_all rfl, by with_unfolding_all rfl,
    by with_unfolding_all rfl, rfl, by with_unfolding_all rfl,
    by with_unfolding_all rfl⟩

/-- C5: validation accepts exactly when
`|local − authoritative| / max(local, authoritative) < 0.1`, and a failed
authoritative on-chain check (which yields the profit figure `0`) always fails
validation for any positive local profit. -/
theorem validation_tolerance :
    (∀ l a : ℚ, 0 < l → 0 ≤ a →
        (validation_passes l a = true ↔ |l - a| / max l a < 1/10)) ∧
    (∀ l : ℚ, 0 < l →
        validation_passes l ((check_arbitrage_opportunity (Except.error ()) : ℤ) : ℚ)
          = false) := by
  constructor
  · intro l a _ _
    simp [validation_passes]
  · intro l hl
    have h0 : ((check_arbitrage_opportunity (Except.error ()) : ℤ) : ℚ) = 0 := rfl
    rw [h0]
    simp only [validation_passes, decide_eq_false_iff_not, not_lt]
    rw [sub_zero, max_eq_left hl.le, abs_of_pos hl, div_self hl.ne.symm]
    norm_num

/-- Witness for C5: the spec's own figures (local 15, authoritative 17: the
relative difference 2/17 exceeds 10%), and a failed authoritative call with
local profit 5. -/
theorem validation_tolerance_witness :
    (validation_passes 15 17 = true ↔ |(15 : ℚ) - 17| / max 15 17 < 1/10) ∧
    validation_passes 5 ((check_arbitrage_opportunity (Except.error ()) : ℤ) : ℚ)
      = false :=
  ⟨validation_tolerance.1 15 17 (by with_unfolding_all decide)
      (by with_unfolding_all decide),
    validation_tolerance.2 5 (by with_unfolding_all decide)⟩

/-- C6 (code bug): `execute_opportunity` raises `NameError` (undefined
`datetime`, integrated_arbitrage_bot.py line 139) on every call, before the
balance check — in particular at the failing input
`balance = 10^17 < amount_in = 10^18` it raises instead of returning the
insufficient-balance failure outcome the claim describes, and the submission
call (like everything after line 139) is never reached. -/
theorem insufficient_balance_check_unreachable :
    execute_opportunity ⟨0, 0⟩ opp_sc (10 ^ 17) true = Except.error () ∧
    ∀ (st : BotState) (o : ArbitrageOpportunity) (b : ℚ) (s : Bool),
      execute_opportunity st o b s = Except.error () :=
  ⟨rfl, fun _ _ _ _ => rfl⟩

/-- C7 (code bug): because every `execute_opportunity` call raises before the
counter updates (lines 162-163), a successful execution is unreachable: any
non-empty execution sequence aborts with `NameError` on its first attempt,
so the coordinator's counters can never be incremented — shown in general and
at the concrete attempt `(opp_sc, balance 10^18, successful submission)`. -/
theorem counter_updates_unreachable :
    (∀ (st : BotState) (x : ArbitrageOpportunity × ℚ × Bool)
        (rest : List (ArbitrageOpportunity × ℚ × Bool)),
        run_executions st (x :: rest) = Except.error ()) ∧
    run_executions ⟨0, 0⟩ [(opp_sc, 10 ^ 18, true)] = Except.error () :=
  ⟨fun _ _ _ => rfl, rfl⟩

/-- C8: for non-negative liquidity and profit inputs the confidence score —
`0.6 · min(liquidity/10000, 1) + 0.4 · min(profit/10^16, 1)` — lies in
`[0, 1]`. -/
theorem confidence_score_in_unit_interval :
    ∀ ul sl p : ℚ, 0 ≤ ul → 0 ≤ sl → 0 ≤ p →
      0 ≤ calculate_confidence_score ul sl p ∧
      calculate_confidence_score ul sl p ≤ 1 := by
  intro ul sl p hu hs hp
  unfold calculate_confidence_score min_liquidity min_profit_threshold
  dsimp only
  have h1 : (0 : ℚ) ≤ min ((ul + sl) / 10000) 1 :=
    le_min (by positivity) zero_le_one
  have h2 : min ((ul + sl) / 10000) 1 ≤ 1 := min_le_right _ _
  have h3 : (0 : ℚ) ≤ min (p / (1/1000 * 10 ^ 18 * 10)) 1 :=
    le_min (by positivity) zero_le_one
  have h4 : min (p / (1/1000 * 10 ^ 18 * 10)) 1 ≤ 1 := min_le_right _ _
  constructor <;> nlinarith

/-- Witness for C8 at liquidity inputs `1, 2` and profit `3`. -/
theorem confidence_score_in_unit_interval_witness :
    0 ≤ calculate_confidence_score 1 2 3 ∧ calculate_confidence_score 1 2 3 ≤ 1 :=
  confidence_score_in_unit_interval 1 2 3 (by with_unfolding_all decide)
    (by with_unfolding_all decide) (by with_unfolding_all decide)

/-- C9: the validation tolerance check is symmetric in the local and
authoritative profit figures. -/
theorem validation_symmetric :
    ∀ l a : ℚ, 0 < l → 0 < a → validation_passes l a = validation_passes a l := by
  intro l a _ _
  simp only [validation_passes, abs_sub_comm l a, max_comm l a]

/-- Witness for C9 at profits 2 and 3. -/
theorem validation_symmetric_witness :
    validation_passes 2 3 = validation_passes 3 2 :=
  validation_symmetric 2 3 (by with_unfolding_all decide)
    (by with_unfolding_all decide)

/-- C10: every Opportunity emitted by the live detection path
`monitor_opportunities` carries the hard-coded confidence score `0.9`,
independent of prices, liquidity and profit. -/
theorem live_confidence_constant :
    ∀ (snaps : List (String × String × ℚ × ℚ)) (gas : ℤ)
      (res : List ArbitrageOpportunity),
      monitor_opportunities snaps gas = Except.ok res →
      ∀ opp ∈ res, opp.confidence_score = 9/10 := by
  intro snaps
  induction snaps with
  | nil =>
    intro gas res h opp hm
    simp only [monitor_opportunities, Except.ok.injEq] at h
    subst h
    simp at hm
  | cons head tail ih =>
    intro gas res h opp hm
    obtain ⟨a, b, u, s⟩ := head
    simp only [monitor_opportunities] at h
    cases hp : monitor_pair u s (10 ^ 18) gas a b with
    | error e => rw [hp] at h; exact Except.noConfusion h
    | ok o =>
      rw [hp] at h
      cases hr : monitor_opportunities tail gas with
      | error e => rw [hr] at h; exact Except.noConfusion h
      | ok os =>
        rw [hr] at h
        simp only [Except.ok.injEq] at h
        subst h
        rcases List.mem_append.mp hm with hmem | hmem
        · cases o with
          | none => simp at hmem
          | some o' =>
            simp only [Option.toList_some, List.mem_singleton] at hmem
            subst hmem
            rw [(monitor_pair_eq_ok_some hp).2]
        · exact ih gas os hr opp hmem

/-- Witness for C10: the single-snapshot run `(3000, 3050)` with gas cost
`2·10^15` emits exactly `opp_sc`, whose confidence score is `0.9`. -/
theorem live_confidence_constant_witness : opp_sc.confidence_score = 9/10 :=
  live_confidence_constant [("a", "b", 3000, 3050)] (2 * 10 ^ 15) [opp_sc]
    (by with_unfolding_all rfl) opp_sc (by simp)

end ArbBot
